import Mathlib

set_option autoImplicit false

namespace Bot

/-! Shallow embedding of the session/cart core of `src/main.py` (FastAPI
backend for the Taaza chatbot). Prices (Python floats) are modelled as
rationals, quantities (Python ints) as integers, the session store (a Python
dict) as an association list with dict-style insert/delete. -/

/-- Line item stored in a session cart, mirroring the dict
`{"name": str, "price": float, "qty": int, "subtotal": float}` described at
`src/main.py` line 58. -/
structure LineItem where
  name : String
  price : ℚ
  qty : Int
  subtotal : ℚ
deriving Repr, DecidableEq

abbrev Cart := List LineItem

/-- Embedding of `add_to_cart_state` (`src/main.py` lines 93-102): scan the
cart in order; at the first entry whose `name` equals `item_name` exactly
(Python `==` on strings), increment its `qty` and recompute `subtotal` as
`qty * price`; if no entry matches, append a new line with
`subtotal = price * qty` at the end. -/
def add_to_cart_state (cart : Cart) (item_name : String) (price : ℚ) (qty : Int) : Cart :=
  match cart with
  | [] => [{ name := item_name, price := price, qty := qty, subtotal := price * (qty : ℚ) }]
  | it :: rest =>
    if it.name = item_name then
      { it with qty := it.qty + qty, subtotal := ((it.qty + qty : Int) : ℚ) * it.price } :: rest
    else
      it :: add_to_cart_state rest item_name price qty

/-- Three-way outcome of `remove_from_cart_state`, distinguished in the code
by the returned success flag and message (`src/main.py` lines 112, 116, 117). -/
inductive RemoveOutcome where
  | removed
  | reduced
  | notFound
deriving Repr, DecidableEq

/-- Python's `str.lower()`, applied character by character. -/
def lower (s : String) : String := ⟨s.data.map Char.toLower⟩

/-- Embedding of `remove_from_cart_state` (`src/main.py` lines 105-117): scan
the cart in order; at the first entry whose lowercased `name` equals the
lowercased `item_name`, either pop the line (when its `qty` is at most the
requested `qty`) or decrement `qty` and recompute `subtotal`; when no entry
matches, report failure and leave the cart unchanged. -/
def remove_from_cart_state (cart : Cart) (item_name : String) (qty : Int) :
    RemoveOutcome × Cart :=
  match cart with
  | [] => (RemoveOutcome.notFound, [])
  | it :: rest =>
    if lower it.name = lower item_name then
      if it.qty ≤ qty then
        (RemoveOutcome.removed, rest)
      else
        (RemoveOutcome.reduced,
          { it with qty := it.qty - qty, subtotal := ((it.qty - qty : Int) : ℚ) * it.price } :: rest)
    else
      let r := remove_from_cart_state rest item_name qty
      (r.1, it :: r.2)

/-- One `(name, qty, rate, amount)` row of the cart summary
(`src/main.py` line 125). -/
structure SummaryLine where
  name : String
  qty : Int
  rate : ℚ
  amount : ℚ
deriving Repr, DecidableEq

/-- Result of `compute_cart_summary`: the rows plus the grand total
(`src/main.py` line 127). -/
structure CartSummary where
  lines : List SummaryLine
  total : ℚ
deriving Repr, DecidableEq

/-- Embedding of `compute_cart_summary` (`src/main.py` lines 120-127): one
row per line item, in cart order, and the total accumulated from 0 by adding
each stored `subtotal`. -/
def compute_cart_summary (cart : Cart) : CartSummary :=
  { lines := cart.map fun it =>
      { name := it.name, qty := it.qty, rate := it.price, amount := it.subtotal }
  , total := cart.foldl (fun acc it => acc + it.subtotal) 0 }

/-- One cart mutation, as exposed by the `/cart/add` and `/cart/remove`
routes acting on a session's cart. -/
inductive CartOp where
  | add (name : String) (price : ℚ) (qty : Int)
  | remove (name : String) (qty : Int)

/-- Apply one cart operation to a cart. -/
def applyOp (cart : Cart) : CartOp → Cart
  | CartOp.add n p q => add_to_cart_state cart n p q
  | CartOp.remove n q => (remove_from_cart_state cart n q).2

/-- Run a sequence of cart operations starting from the empty cart a fresh
session gets (`src/main.py` line 215). -/
def runOps (ops : List CartOp) : Cart := ops.foldl applyOp []

/-- User profile stored in a session (`src/main.py` line 214). -/
structure UserProfile where
  name : String
  mobile : String
  address : String
deriving Repr, DecidableEq

/-- Session record (`src/main.py` lines 54-61 and 212-218). -/
structure Session where
  created_at : Nat
  user : UserProfile
  cart : Cart
  categories : Option (List String)
  selected_cat : Option String
deriving Repr, DecidableEq

/-- The module-level `sessions` dict (`src/main.py` line 62), as an
association list keyed by session id. -/
abbrev Sessions := List (String × Session)

/-- Dict lookup: `sessions[k]` / `k in sessions`. -/
def storeGet : Sessions → String → Option Session
  | [], _ => none
  | (k', v) :: rest, k => if k' = k then some v else storeGet rest k

/-- Dict assignment `sessions[k] = v`: overwrite the existing binding in
place, or append a new one. -/
def storeSet : Sessions → String → Session → Sessions
  | [], k, v => [(k, v)]
  | (k', v') :: rest, k, v =>
    if k' = k then (k, v) :: rest else (k', v') :: storeSet rest k v

/-- Dict removal `sessions.pop(k, None)`: drop the binding for `k` when
present, otherwise change nothing. -/
def storePop : Sessions → String → Sessions
  | [], _ => []
  | (k', v') :: rest, k => if k' = k then rest else (k', v') :: storePop rest k

/-- Python's `str.strip()`: drop whitespace from both ends. -/
def strip (s : String) : String :=
  ⟨((s.data.dropWhile Char.isWhitespace).reverse.dropWhile Char.isWhitespace).reverse⟩

/-- Embedding of `validate_mobile` (`src/main.py` lines 77-90): all digits,
first character `3`, exactly 10 characters. -/
def validate_mobile (mobile : String) : Bool :=
  if mobile = "" ∨ ¬ mobile.data.all Char.isDigit then false
  else if ¬ mobile.data.head? = some '3' then false
  else if ¬ mobile.length = 10 then false
  else true

/-- Validation failures of `/session/create` (`src/main.py` lines 203-208),
all reported as HTTP 400. -/
inductive CreateError where
  | emptyName
  | invalidMobile
  | badAddress
deriving Repr, DecidableEq

/-- Default idle-expiry delay (`src/main.py` line 35). -/
def AUTO_LOGOUT_SECONDS : Nat := 1800

/-- Effective country code, `req.country_code or "+92"`
(`src/main.py` line 201): Python truthiness makes both a missing value and
the empty string fall back to "+92". -/
def effective_country_code (cc : Option String) : String :=
  match cc with
  | none => "+92"
  | some c => if c = "" then "+92" else c

/-- The fresh record `session_create` stores (`src/main.py` lines 212-218);
its arguments are the already-stripped name, mobile and address. -/
def new_session_record (name mobile address : String) (cc : Option String) (now_ms : Nat) :
    Session :=
  { created_at := now_ms
  , user := { name := name, mobile := effective_country_code cc ++ mobile, address := address }
  , cart := []
  , categories := none
  , selected_cat := none }

/-- Embedding of `session_create` (`src/main.py` lines 192-222). `now_ms` is
the clock value `int(time.time()*1000)`; the session id is derived from it
with no collision check, and the dict assignment overwrites any existing
binding with that id. On success returns the updated store, the new id, and
the delay of the idle-expiry timer passed to `reset_session_later`. -/
def session_create (sessions : Sessions) (name mobile address : String)
    (country_code : Option String) (now_ms : Nat) :
    Except CreateError (Sessions × String × Nat) :=
  let name := strip name
  let mobile := strip mobile
  let address := strip address
  if name = "" then Except.error CreateError.emptyName
  else if ¬ validate_mobile mobile then Except.error CreateError.invalidMobile
  else if address.length < 3 then Except.error CreateError.badAddress
  else
    let session_id := "sess_" ++ toString now_ms
    Except.ok (storeSet sessions session_id
        (new_session_record name mobile address country_code now_ms),
      session_id, AUTO_LOGOUT_SECONDS)

/-- What `body = request.json()` evaluates to inside the synchronous
`session_reset` handler: `Request.json` is a coroutine function and the call
is never awaited, so `body` is a coroutine object, not a dict
(`src/main.py` line 312). -/
inductive PyBody where
  | dict (fields : List (String × String))
  | coroutine
deriving Repr, DecidableEq

/-- Embedding of `session_reset` (`src/main.py` lines 308-319).
`req_fields` is the JSON object the client sent. The handler is a plain
`def`, so `request.json()` returns an un-awaited coroutine (no exception is
raised), the `isinstance(body, dict)` test is False, and `session_id` is
always `None`; the branch that pops the session is unreachable. -/
def session_reset (sessions : Sessions) (_req_fields : List (String × String)) :
    Sessions × Bool :=
  let body : PyBody := PyBody.coroutine
  let session_id : Option String :=
    match body with
    | PyBody.dict fields => fields.lookup "session_id"
    | PyBody.coroutine => none
  match session_id with
  | some sid =>
    if sid ≠ "" ∧ (storeGet sessions sid).isSome then (storePop sessions sid, true)
    else (sessions, false)
  | none => (sessions, false)

/-- One row of the billing payload (`src/main.py` lines 267-272). -/
structure PayloadItem where
  itemName : String
  qty : Int
  rate : ℚ
  amount : ℚ
deriving Repr, DecidableEq

/-- Order payload forwarded to the billing API (`src/main.py` lines
275-282). -/
structure OrderPayload where
  customerName : String
  mobileNo : String
  address : String
  items : List PayloadItem
  total : ℚ
  paymentMethod : String
deriving Repr, DecidableEq

/-- The loop at `src/main.py` lines 264-273: build `items_payload` row by
row while accumulating `total` from 0. -/
def build_items_payload (cart : Cart) : List PayloadItem × ℚ :=
  cart.foldl
    (fun acc it =>
      (acc.1 ++ [{ itemName := it.name, qty := it.qty, rate := it.price, amount := it.subtotal }],
       acc.2 + it.subtotal))
    ([], 0)

/-- HTTP-level outcome of one `/checkout` call. -/
inductive CheckoutResult where
  | notFound
  | emptyCart
  | forwardFailed
  | billingFailed (status : Nat)
  | success (payload : OrderPayload) (status : Nat)
deriving Repr, DecidableEq

/-- Observable effect of one `/checkout` call: the result, the session store
afterwards, whether the billing API was contacted, and the
`(session id, delay)` of any `reset_session_later` timer scheduled. -/
structure CheckoutOutput where
  result : CheckoutResult
  sessions : Sessions
  network_called : Bool
  scheduled_reset : Option (String × Nat)
deriving Repr, DecidableEq

/-- Embedding of `checkout` (`src/main.py` lines 253-305). `billing` models
the `requests.post` call to the billing API: `none` when it raises an
exception, `some status` when it returns a response with that status code.
The cart is cleared and a 30-second reset is scheduled exactly when the
status is 200 or 201. -/
def checkout (sessions : Sessions) (sid paymentMethod : String) (billing : Option Nat) :
    CheckoutOutput :=
  match storeGet sessions sid with
  | none => ⟨CheckoutResult.notFound, sessions, false, none⟩
  | some state =>
    if state.cart = [] then ⟨CheckoutResult.emptyCart, sessions, false, none⟩
    else
      let ip := build_items_payload state.cart
      let payload : OrderPayload :=
        { customerName := state.user.name
        , mobileNo := state.user.mobile
        , address := state.user.address
        , items := ip.1
        , total := ip.2
        , paymentMethod := paymentMethod }
      match billing with
      | none => ⟨CheckoutResult.forwardFailed, sessions, true, none⟩
      | some status =>
        if status = 200 ∨ status = 201 then
          ⟨CheckoutResult.success payload status,
            storeSet sessions sid { state with cart := [] }, true, some (sid, 30)⟩
        else
          ⟨CheckoutResult.billingFailed status, sessions, true, none⟩

/-- Names of the cart's line items, in order. -/
def cartNames (c : Cart) : List String := c.map LineItem.name

/-- No two line items of the cart have exactly the same name string. -/
def namesUnique (c : Cart) : Prop := c.Pairwise (fun a b => a.name ≠ b.name)

/-- Every stored subtotal equals the stored quantity times the stored
price. -/
def subtotalInv (c : Cart) : Prop := ∀ it ∈ c, it.subtotal = (it.qty : ℚ) * it.price

/-- A sequence of `addItem` calls with one fixed name, as in claim C2:
each element of `calls` carries the price and quantity of one call. -/
def addMany (c : Cart) (n : String) (calls : List (ℚ × Int)) : Cart :=
  calls.foldl (fun acc pq => add_to_cart_state acc n pq.1 pq.2) c

/-- Sum of the quantities of a sequence of `addItem` calls. -/
def sumQty (calls : List (ℚ × Int)) : Int := (calls.map Prod.snd).sum

example : add_to_cart_state [] "Chicken" 500 2 =
    [{ name := "Chicken", price := 500, qty := 2, subtotal := 1000 }] := by
  norm_num [add_to_cart_state]

example : add_to_cart_state (add_to_cart_state [] "Chicken" 500 2) "chicken" 500 1 =
    [{ name := "Chicken", price := 500, qty := 2, subtotal := 1000 },
     { name := "chicken", price := 500, qty := 1, subtotal := 500 }] := by
  norm_num [add_to_cart_state]
  decide

example : remove_from_cart_state [{ name := "Chicken", price := 500, qty := 3, subtotal := 1500 }]
    "CHICKEN" 1 =
    (RemoveOutcome.reduced, [{ name := "Chicken", price := 500, qty := 2, subtotal := 1000 }]) := by
  norm_num [remove_from_cart_state, show lower "Chicken" = lower "CHICKEN" by decide]

example : remove_from_cart_state [{ name := "Chicken", price := 500, qty := 2, subtotal := 1000 }]
    "Chicken" 5 = (RemoveOutcome.removed, []) := by
  norm_num [remove_from_cart_state]

example : compute_cart_summary [{ name := "a", price := 5, qty := 2, subtotal := 10 }] =
    { lines := [{ name := "a", qty := 2, rate := 5, amount := 10 }], total := 10 } := by
  norm_num [compute_cart_summary]

/-! Cart invariants and helper lemmas. -/

lemma name_mem_add {c : Cart} {n : String} {p : ℚ} {q : Int} {x : LineItem}
    (hx : x ∈ add_to_cart_state c n p q) : x.name ∈ cartNames c ∨ x.name = n := by
  induction c with
  | nil =>
    simp only [add_to_cart_state, List.mem_singleton] at hx
    subst hx
    exact Or.inr rfl
  | cons it rest ih =>
    simp only [add_to_cart_state] at hx
    by_cases h : it.name = n
    · rw [if_pos h] at hx
      rcases List.mem_cons.mp hx with h1 | h1
      · subst h1
        exact Or.inl (List.mem_cons_self _ _)
      · exact Or.inl (List.mem_cons_of_mem _ (List.mem_map_of_mem _ h1))
    · rw [if_neg h] at hx
      rcases List.mem_cons.mp hx with h1 | h1
      · subst h1
        exact Or.inl (List.mem_cons_self _ _)
      · rcases ih h1 with h2 | h2
        · exact Or.inl (List.mem_cons_of_mem _ h2)
        · exact Or.inr h2

lemma namesUnique_add {c : Cart} (h : namesUnique c) (n : String) (p : ℚ) (q : Int) :
    namesUnique (add_to_cart_state c n p q) := by
  induction c with
  | nil =>
    simp [add_to_cart_state, namesUnique]
  | cons it rest ih =>
    rcases List.pairwise_cons.mp h with ⟨hhead, htail⟩
    simp only [add_to_cart_state]
    by_cases hn : it.name = n
    · rw [if_pos hn]
      exact List.pairwise_cons.mpr ⟨fun x hx => hhead x hx, htail⟩
    · rw [if_neg hn]
      refine List.pairwise_cons.mpr ⟨fun x hx => ?_, ih htail⟩
      rcases name_mem_add hx with h1 | h1
      · intro heq
        rcases List.mem_map.mp h1 with ⟨y, hy, hyname⟩
        exact hhead y hy (heq.trans hyname.symm)
      · intro heq
        exact hn (heq.trans h1)

lemma name_mem_remove {c : Cart} {n : String} {q : Int} {x : LineItem}
    (hx : x ∈ (remove_from_cart_state c n q).2) : x.name ∈ cartNames c := by
  induction c with
  | nil =>
    simp [remove_from_cart_state] at hx
  | cons it rest ih =>
    simp only [remove_from_cart_state] at hx
    by_cases hm : lower it.name = lower n
    · rw [if_pos hm] at hx
      by_cases hq : it.qty ≤ q
      · rw [if_pos hq] at hx
        exact List.mem_cons_of_mem _ (List.mem_map_of_mem _ hx)
      · rw [if_neg hq] at hx
        rcases List.mem_cons.mp hx with h1 | h1
        · subst h1
          exact List.mem_cons_self _ _
        · exact List.mem_cons_of_mem _ (List.mem_map_of_mem _ h1)
    · rw [if_neg hm] at hx
      rcases List.mem_cons.mp hx with h1 | h1
      · subst h1
        exact List.mem_cons_self _ _
      · exact List.mem_cons_of_mem _ (ih h1)

lemma namesUnique_remove {c : Cart} (h : namesUnique c) (n : String) (q : Int) :
    namesUnique (remove_from_cart_state c n q).2 := by
  induction c with
  | nil =>
    exact h
  | cons it rest ih =>
    rcases List.pairwise_cons.mp h with ⟨hhead, htail⟩
    simp only [remove_from_cart_state]
    by_cases hm : lower it.name = lower n
    · rw [if_pos hm]
      by_cases hq : it.qty ≤ q
      · rw [if_pos hq]
        exact htail
      · rw [if_neg hq]
        exact List.pairwise_cons.mpr ⟨fun x hx => hhead x hx, htail⟩
    · rw [if_neg hm]
      refine List.pairwise_cons.mpr ⟨fun x hx => ?_, ih htail⟩
      rcases List.mem_map.mp (name_mem_remove hx) with ⟨y, hy, hyname⟩
      intro heq
      exact hhead y hy (heq.trans hyname.symm)

lemma subtotalInv_add {c : Cart} (h : subtotalInv c) (n : String) (p : ℚ) (q : Int) :
    subtotalInv (add_to_cart_state c n p q) := by
  induction c with
  | nil =>
    intro x hx
    simp only [add_to_cart_state, List.mem_singleton] at hx
    subst hx
    simp [mul_comm]
  | cons it rest ih =>
    have hhead : it.subtotal = (it.qty : ℚ) * it.price := h it (List.mem_cons_self _ _)
    have htail : subtotalInv rest := fun x hx => h x (List.mem_cons_of_mem _ hx)
    intro x hx
    simp only [add_to_cart_state] at hx
    by_cases hn : it.name = n
    · rw [if_pos hn] at hx
      rcases List.mem_cons.mp hx with h1 | h1
      · subst h1
        push_cast
        ring
      · exact htail x h1
    · rw [if_neg hn] at hx
      rcases List.mem_cons.mp hx with h1 | h1
      · subst h1
        exact hhead
      · exact ih htail x h1

lemma subtotalInv_remove {c : Cart} (h : subtotalInv c) (n : String) (q : Int) :
    subtotalInv (remove_from_cart_state c n q).2 := by
  induction c with
  | nil =>
    intro x hx
    simp [remove_from_cart_state] at hx
  | cons it rest ih =>
    have hhead : it.subtotal = (it.qty : ℚ) * it.price := h it (List.mem_cons_self _ _)
    have htail : subtotalInv rest := fun x hx => h x (List.mem_cons_of_mem _ hx)
    intro x hx
    simp only [remove_from_cart_state] at hx
    by_cases hm : lower it.name = lower n
    · rw [if_pos hm] at hx
      by_cases hq : it.qty ≤ q
      · rw [if_pos hq] at hx
        exact htail x hx
      · rw [if_neg hq] at hx
        rcases List.mem_cons.mp hx with h1 | h1
        · subst h1
          push_cast
          ring
        · exact htail x h1
    · rw [if_neg hm] at hx
      rcases List.mem_cons.mp hx with h1 | h1
      · subst h1
        exact hhead
      · exact ih htail x h1

lemma namesUnique_applyOp {c : Cart} (h : namesUnique c) (op : CartOp) :
    namesUnique (applyOp c op) := by
  cases op with
  | add n p q => exact namesUnique_add h n p q
  | remove n q => exact namesUnique_remove h n q

lemma subtotalInv_applyOp {c : Cart} (h : subtotalInv c) (op : CartOp) :
    subtotalInv (applyOp c op) := by
  cases op with
  | add n p q => exact subtotalInv_add h n p q
  | remove n q => exact subtotalInv_remove h n q

lemma namesUnique_foldl (ops : List CartOp) :
    ∀ c : Cart, namesUnique c → namesUnique (ops.foldl applyOp c) := by
  induction ops with
  | nil => exact fun c h => h
  | cons op ops ih => exact fun c h => ih _ (namesUnique_applyOp h op)

lemma subtotalInv_foldl (ops : List CartOp) :
    ∀ c : Cart, subtotalInv c → subtotalInv (ops.foldl applyOp c) := by
  induction ops with
  | nil => exact fun c h => h
  | cons op ops ih => exact fun c h => ih _ (subtotalInv_applyOp h op)

/-- Merging branch of `add_to_cart_state`: when an item with exactly the
requested name sits after a prefix of non-matching items, its quantity is
incremented in place and its subtotal recomputed; nothing else changes. -/
lemma add_to_cart_split (pre post : Cart) (it : LineItem) (n : String) (p : ℚ) (q : Int)
    (hpre : ∀ x ∈ pre, x.name ≠ n) (hit : it.name = n) :
    add_to_cart_state (pre ++ it :: post) n p q =
      pre ++
        { it with qty := it.qty + q, subtotal := ((it.qty + q : Int) : ℚ) * it.price } :: post := by
  induction pre with
  | nil =>
    simp only [List.nil_append, add_to_cart_state, if_pos hit]
  | cons y pre ih =>
    have hy : y.name ≠ n := hpre y (List.mem_cons_self _ _)
    simp only [List.cons_append, add_to_cart_state, if_neg hy, List.append_eq]
    rw [ih (fun x hx => hpre x (List.mem_cons_of_mem _ hx))]

/-- Appending branch of `add_to_cart_state`: when no item has exactly the
requested name, a new line is appended at the end of the cart. -/
lemma add_to_cart_append (c : Cart) (n : String) (p : ℚ) (q : Int)
    (h : ∀ x ∈ c, x.name ≠ n) :
    add_to_cart_state c n p q =
      c ++ [{ name := n, price := p, qty := q, subtotal := p * (q : ℚ) }] := by
  induction c with
  | nil => rfl
  | cons it rest ih =>
    have hit : it.name ≠ n := h it (List.mem_cons_self _ _)
    simp only [add_to_cart_state, if_neg hit, List.cons_append]
    rw [ih (fun x hx => h x (List.mem_cons_of_mem _ hx))]

/-- Failure branch of `remove_from_cart_state`: when no item matches
case-insensitively, the outcome is `notFound` and the cart is returned
unchanged. -/
lemma remove_not_found (c : Cart) (n : String) (q : Int)
    (h : ∀ x ∈ c, lower x.name ≠ lower n) :
    remove_from_cart_state c n q = (RemoveOutcome.notFound, c) := by
  induction c with
  | nil => rfl
  | cons it rest ih =>
    have hit : lower it.name ≠ lower n := h it (List.mem_cons_self _ _)
    simp only [remove_from_cart_state, if_neg hit]
    rw [ih (fun x hx => h x (List.mem_cons_of_mem _ hx))]

/-- Success branches of `remove_from_cart_state`: the first
case-insensitive match is popped when its quantity is at most the requested
one, and decremented in place otherwise; the rest of the cart is
unchanged. -/
lemma remove_from_cart_split (pre post : Cart) (it : LineItem) (n : String) (q : Int)
    (hpre : ∀ x ∈ pre, lower x.name ≠ lower n) (hit : lower it.name = lower n) :
    remove_from_cart_state (pre ++ it :: post) n q =
      if it.qty ≤ q then (RemoveOutcome.removed, pre ++ post)
      else
        (RemoveOutcome.reduced,
          pre ++
            { it with qty := it.qty - q,
                      subtotal := ((it.qty - q : Int) : ℚ) * it.price } :: post) := by
  induction pre with
  | nil =>
    simp only [List.nil_append, remove_from_cart_state, if_pos hit]
  | cons y pre ih =>
    have hy : lower y.name ≠ lower n := hpre y (List.mem_cons_self _ _)
    simp only [List.cons_append, remove_from_cart_state, if_neg hy, List.append_eq]
    rw [ih (fun x hx => hpre x (List.mem_cons_of_mem _ hx))]
    split_ifs <;> rfl

lemma summary_total_foldl (c : Cart) :
    ∀ a : ℚ, c.foldl (fun acc it => acc + it.subtotal) a = a + (c.map LineItem.subtotal).sum := by
  induction c with
  | nil => intro a; simp
  | cons it rest ih =>
    intro a
    simp only [List.foldl_cons, List.map_cons, List.sum_cons, ih]
    ring

/-- The grand total of `compute_cart_summary` is the sum of the stored
subtotals. -/
lemma summary_total_eq_sum (c : Cart) :
    (compute_cart_summary c).total = (c.map LineItem.subtotal).sum := by
  simp [compute_cart_summary, summary_total_foldl]

lemma addMany_single (n : String) (p : ℚ) (calls : List (ℚ × Int)) :
    ∀ q : Int,
      addMany [{ name := n, price := p, qty := q, subtotal := (q : ℚ) * p }] n calls =
        [{ name := n, price := p, qty := q + sumQty calls,
           subtotal := ((q + sumQty calls : Int) : ℚ) * p }] := by
  induction calls with
  | nil =>
    intro q
    simp [addMany, sumQty]
  | cons pq calls ih =>
    intro q
    have hstep : add_to_cart_state
        [{ name := n, price := p, qty := q, subtotal := (q : ℚ) * p }] n pq.1 pq.2 =
        [{ name := n, price := p, qty := q + pq.2, subtotal := ((q + pq.2 : Int) : ℚ) * p }] := by
      simp [add_to_cart_state]
    have h1 : addMany [{ name := n, price := p, qty := q, subtotal := (q : ℚ) * p }] n
        (pq :: calls) =
        addMany (add_to_cart_state
          [{ name := n, price := p, qty := q, subtotal := (q : ℚ) * p }] n pq.1 pq.2) n calls :=
      rfl
    rw [h1, hstep, ih (q + pq.2)]
    have h2 : q + pq.2 + sumQty calls = q + sumQty (pq :: calls) := by
      simp [sumQty]
      ring
    rw [h2]

lemma storeGet_storeSet (s : Sessions) (k : String) (v : Session) :
    storeGet (storeSet s k v) k = some v := by
  induction s with
  | nil => simp [storeSet, storeGet]
  | cons kv rest ih =>
    obtain ⟨k', v'⟩ := kv
    by_cases h : k' = k
    · simp [storeSet, storeGet, h]
    · simp [storeSet, storeGet, h, ih]

/-! Claims. -/

/-- Claim C1, counterexample: starting from the empty cart, adding
"Chicken" and then "chicken" leaves two line items whose names are equal
case-insensitively — `add_to_cart_state` compares names case-sensitively,
so the second call appends instead of incrementing. -/
theorem C1_counterexample :
    ((runOps [CartOp.add "Chicken" 500 2, CartOp.add "chicken" 500 1]).map fun x =>
      lower x.name) = ["chicken", "chicken"] := by
  decide

/-- Claim C1, amended: for every sequence of addItem/removeItem operations
from the empty cart, the cart never contains two line items with exactly
the same name string, and an addItem whose name exactly equals an existing
line's name increments that line's quantity in place (recomputing its
subtotal) instead of appending; the matching is case-sensitive, not
case-insensitive. -/
theorem C1_names_exactly_unique (ops : List CartOp) (n : String) (p : ℚ) (q : Int) :
    namesUnique (runOps ops) ∧
    (∀ pre it post, runOps ops = pre ++ it :: post → (∀ x ∈ pre, x.name ≠ n) → it.name = n →
      add_to_cart_state (runOps ops) n p q =
        pre ++
          { it with qty := it.qty + q,
                    subtotal := ((it.qty + q : Int) : ℚ) * it.price } :: post) := by
  constructor
  · exact namesUnique_foldl ops [] List.Pairwise.nil
  · intro pre it post hsplit hpre hit
    rw [hsplit]
    exact add_to_cart_split pre post it n p q hpre hit

/-- Witness for C1: in the one-item cart produced by adding "a", a second
add with the exact name "a" increments the quantity in place. -/
theorem C1_witness :
    namesUnique (runOps [CartOp.add "a" 5 1]) ∧
    add_to_cart_state (runOps [CartOp.add "a" 5 1]) "a" 7 2 =
      [] ++
        { name := "a", price := 5, qty := 1 + 2,
          subtotal := ((1 + 2 : Int) : ℚ) * 5 } :: [] := by
  have h := C1_names_exactly_unique [CartOp.add "a" 5 1] "a" 7 2
  exact ⟨h.1,
    h.2 [] { name := "a", price := 5, qty := 1, subtotal := 5 * ((1 : Int) : ℚ) } []
      rfl (by simp) rfl⟩

/-- Claim C2, counterexample: two adds with the same name "a" but prices 5
then 7 merge into a line with the first call's price 5 and subtotal
2 × 5 = 10; the claimed subtotal 2 × 7 = 14 from the last call's price is
wrong — the merging branch of `add_to_cart_state` never touches the stored
price. -/
theorem C2_counterexample :
    add_to_cart_state (add_to_cart_state [] "a" 5 1) "a" 7 1 =
      [{ name := "a", price := 5, qty := 2, subtotal := 10 }] ∧
    ¬ add_to_cart_state (add_to_cart_state [] "a" 5 1) "a" 7 1 =
      [{ name := "a", price := 7, qty := 2, subtotal := 14 }] := by
  constructor
  · norm_num [add_to_cart_state]
  · norm_num [add_to_cart_state]

/-- Claim C2, amended: a non-empty sequence of addItem calls that all use
exactly the same name yields a cart with exactly one line item for that
name; its quantity is the sum of all the calls' quantities, its price is
the FIRST call's price (later prices are ignored, not merged in), and its
subtotal is that quantity times the first call's price. -/
theorem C2_same_name_merge (n : String) (p : ℚ) (q : Int) (rest : List (ℚ × Int)) :
    addMany [] n ((p, q) :: rest) =
      [{ name := n, price := p, qty := q + sumQty rest,
         subtotal := ((q + sumQty rest : Int) : ℚ) * p }] := by
  have h1 : addMany [] n ((p, q) :: rest) =
      addMany [{ name := n, price := p, qty := q, subtotal := p * (q : ℚ) }] n rest := rfl
  rw [h1, mul_comm p (q : ℚ), addMany_single n p rest q]

/-- Claim C8: in every cart reachable from the empty cart by
addItem/removeItem operations, each line item's stored subtotal equals its
stored quantity times its stored price. -/
theorem C8_subtotal_invariant (ops : List CartOp) (it : LineItem) (hit : it ∈ runOps ops) :
    it.subtotal = (it.qty : ℚ) * it.price :=
  subtotalInv_foldl ops [] (fun x hx => absurd hx (List.not_mem_nil x)) it hit

/-- Witness for C8: the cart after adding ("a", price 5, qty 2) contains
the line (a, 5, 2, 10), and 10 = 2 × 5. -/
theorem C8_witness :
    ({ name := "a", price := 5, qty := 2, subtotal := 10 } : LineItem) ∈
      runOps [CartOp.add "a" 5 2] ∧
    (10 : ℚ) = ((2 : Int) : ℚ) * 5 := by
  have hmem : ({ name := "a", price := 5, qty := 2, subtotal := 10 } : LineItem) ∈
      runOps [CartOp.add "a" 5 2] := by
    norm_num [runOps, applyOp, add_to_cart_state]
  exact ⟨hmem, C8_subtotal_invariant [CartOp.add "a" 5 2] _ hmem⟩

/-- Claim C3, counterexample: in the reachable cart holding "chicken" and
"Chicken" as separate lines, removing "chicken" reports the "removed"
outcome yet a line whose name matches case-insensitively is still present —
only the first match is popped. -/
theorem C3_counterexample :
    (remove_from_cart_state (runOps [CartOp.add "chicken" 1 1, CartOp.add "Chicken" 2 3])
        "chicken" 5).1 = RemoveOutcome.removed ∧
    ((remove_from_cart_state (runOps [CartOp.add "chicken" 1 1, CartOp.add "Chicken" 2 3])
        "chicken" 5).2.map fun x => lower x.name) = ["chicken"] := by
  decide

/-- Claim C3, amended: removeItem acts on the FIRST case-insensitive match.
If no item matches, the outcome is notFound and the cart is unchanged. If
the first match's quantity is at most the requested quantity, that line is
popped and the outcome is "removed" — and the item is absent afterwards
provided no other line matches case-insensitively. If its quantity exceeds
the requested one, the line's quantity is decremented, its subtotal
recomputed, and the outcome is "reduced". -/
theorem C3_remove_three_way (cart : Cart) (name : String) (qty : Int) :
    ((∀ x ∈ cart, lower x.name ≠ lower name) →
      remove_from_cart_state cart name qty = (RemoveOutcome.notFound, cart)) ∧
    (∀ pre it post, cart = pre ++ it :: post →
      (∀ x ∈ pre, lower x.name ≠ lower name) → lower it.name = lower name →
      (it.qty ≤ qty →
        remove_from_cart_state cart name qty = (RemoveOutcome.removed, pre ++ post) ∧
        ((∀ x ∈ post, lower x.name ≠ lower name) →
          ∀ x ∈ (remove_from_cart_state cart name qty).2, lower x.name ≠ lower name)) ∧
      (qty < it.qty →
        remove_from_cart_state cart name qty =
          (RemoveOutcome.reduced,
            pre ++
              { it with qty := it.qty - qty,
                        subtotal := ((it.qty - qty : Int) : ℚ) * it.price } :: post))) := by
  refine ⟨fun h => remove_not_found cart name qty h, ?_⟩
  intro pre it post hsplit hpre hit
  subst hsplit
  have heq := remove_from_cart_split pre post it name qty hpre hit
  constructor
  · intro hle
    refine ⟨by rw [heq, if_pos hle], ?_⟩
    intro hpost x hx
    rw [heq, if_pos hle] at hx
    rcases List.mem_append.mp hx with h1 | h1
    · exact hpre x h1
    · exact hpost x h1
  · intro hlt
    rw [heq, if_neg (not_le.mpr hlt)]

/-- Witness for C3: removing 1 "a" from the cart holding (A, price 5,
qty 3) follows the "reduced" branch and decrements the quantity. -/
theorem C3_witness :
    remove_from_cart_state [{ name := "A", price := 5, qty := 3, subtotal := 15 }] "a" 1 =
      (RemoveOutcome.reduced,
        [] ++
          { name := "A", price := 5, qty := 3 - 1,
            subtotal := ((3 - 1 : Int) : ℚ) * 5 } :: []) := by
  have h := (C3_remove_three_way [{ name := "A", price := 5, qty := 3, subtotal := 15 }]
      "a" 1).2 [] { name := "A", price := 5, qty := 3, subtotal := 15 } [] rfl
      (by simp) (by decide)
  exact h.2 (by decide)

/-- Claim C9, counterexample: removing a matching item whose price is 0
yields the "removed" outcome but the summarize total does not strictly
decrease (it stays 0). -/
theorem C9_counterexample :
    remove_from_cart_state [{ name := "a", price := 0, qty := 1, subtotal := 0 }] "a" 1 =
      (RemoveOutcome.removed, []) ∧
    ¬ (compute_cart_summary
          (remove_from_cart_state
            [{ name := "a", price := 0, qty := 1, subtotal := 0 }] "a" 1).2).total <
        (compute_cart_summary [{ name := "a", price := 0, qty := 1, subtotal := 0 }]).total := by
  constructor
  · norm_num [remove_from_cart_state]
  · norm_num [remove_from_cart_state, compute_cart_summary]

/-- Claim C9, amended: when removeItem matches an item (first
case-insensitive match, stored subtotal consistent with price × quantity),
the summarize grand total decreases by exactly
min(existing_qty, requested_qty) × price; the decrease is strict exactly
when that product is positive — with a zero price or a non-positive
requested quantity the total does not strictly decrease. -/
theorem C9_total_decrease (pre post : Cart) (it : LineItem) (name : String) (qty : Int)
    (hpre : ∀ x ∈ pre, lower x.name ≠ lower name)
    (hit : lower it.name = lower name)
    (hsub : it.subtotal = (it.qty : ℚ) * it.price) :
    (compute_cart_summary (pre ++ it :: post)).total -
        (compute_cart_summary
          ((remove_from_cart_state (pre ++ it :: post) name qty).2)).total =
      ((min it.qty qty : Int) : ℚ) * it.price ∧
    (0 < ((min it.qty qty : Int) : ℚ) * it.price →
      (compute_cart_summary
          ((remove_from_cart_state (pre ++ it :: post) name qty).2)).total <
        (compute_cart_summary (pre ++ it :: post)).total) := by
  have heq := remove_from_cart_split pre post it name qty hpre hit
  have hdiff : (compute_cart_summary (pre ++ it :: post)).total -
      (compute_cart_summary
        ((remove_from_cart_state (pre ++ it :: post) name qty).2)).total =
      ((min it.qty qty : Int) : ℚ) * it.price := by
    by_cases hle : it.qty ≤ qty
    · rw [heq, if_pos hle]
      simp only [summary_total_eq_sum, List.map_append, List.sum_append, List.map_cons,
        List.sum_cons]
      rw [hsub, min_eq_left hle]
      ring
    · rw [heq, if_neg hle]
      simp only [summary_total_eq_sum, List.map_append, List.sum_append, List.map_cons,
        List.sum_cons]
      rw [hsub, min_eq_right (le_of_not_le hle)]
      push_cast
      ring
  exact ⟨hdiff, fun hpos => by linarith [hdiff]⟩

/-- Witness for C9: removing 1 of (a, price 5, qty 2) lowers the total by
min(2, 1) × 5 = 5. -/
theorem C9_witness :
    (compute_cart_summary
        ([] ++ { name := "a", price := 5, qty := 2, subtotal := 10 } :: [])).total -
      (compute_cart_summary
        ((remove_from_cart_state
          ([] ++ { name := "a", price := 5, qty := 2, subtotal := 10 } :: []) "a" 1).2)).total =
      ((min 2 1 : Int) : ℚ) * 5 :=
  (C9_total_decrease [] [] { name := "a", price := 5, qty := 2, subtotal := 10 } "a" 1
    (by simp) rfl (by norm_num)).1

/-- Claim C4 (code bug in `session_reset`): the handler always answers
`reset = false` and never removes a session, whatever the store holds and
whatever JSON body the client sent — the un-awaited `request.json()` never
yields a dict, so the pop branch is unreachable. -/
theorem C4_reset_always_false (sessions : Sessions) (fields : List (String × String)) :
    session_reset sessions fields = (sessions, false) := rfl

/-- Claim C5, counterexample: two session creations at the same millisecond
timestamp both receive the id "sess_1000", and the second creation
overwrites the first user's record — ids are time-derived with no collision
check. -/
theorem C5_counterexample :
    session_create [] "Ali" "3001234567" "House 1 St 2" (some "+92") 1000 =
      Except.ok ([("sess_1000",
        { created_at := 1000,
          user := { name := "Ali", mobile := "+923001234567", address := "House 1 St 2" },
          cart := [], categories := none, selected_cat := none })], "sess_1000", 1800) ∧
    session_create [("sess_1000",
        { created_at := 1000,
          user := { name := "Ali", mobile := "+923001234567", address := "House 1 St 2" },
          cart := [], categories := none, selected_cat := none })]
        "Bob" "3007654321" "Street 9 House 4" (some "+92") 1000 =
      Except.ok ([("sess_1000",
        { created_at := 1000,
          user := { name := "Bob", mobile := "+923007654321", address := "Street 9 House 4" },
          cart := [], categories := none, selected_cat := none })], "sess_1000", 1800) :=
  ⟨rfl, rfl⟩

/-- Claim C5, amended: a successful creation stores a new record whose cart
is the empty list under the id "sess_" followed by the millisecond
timestamp, and that record is retrievable afterwards; but the id carries no
collision check — the dict assignment overwrites, so a second creation at
the same millisecond replaces the existing session instead of allocating a
distinct id. -/
theorem C5_create_stores_empty_cart (sessions : Sessions) (name mobile address : String)
    (cc : Option String) (now_ms : Nat)
    (h1 : strip name ≠ "") (h2 : validate_mobile (strip mobile) = true)
    (h3 : ¬ (strip address).length < 3) :
    ∃ record : Session,
      session_create sessions name mobile address cc now_ms =
        Except.ok (storeSet sessions ("sess_" ++ toString now_ms) record,
          "sess_" ++ toString now_ms, AUTO_LOGOUT_SECONDS) ∧
      record.cart = [] ∧
      storeGet (storeSet sessions ("sess_" ++ toString now_ms) record)
          ("sess_" ++ toString now_ms) = some record := by
  have hv : ¬ ¬ validate_mobile (strip mobile) = true := by simp [h2]
  refine ⟨new_session_record (strip name) (strip mobile) (strip address) cc now_ms,
    ?_, rfl, storeGet_storeSet _ _ _⟩
  simp only [session_create]
  rw [if_neg h1, if_neg hv, if_neg h3]

/-- Witness for C5: creating a session for Ali at timestamp 1000 succeeds
and stores an empty cart. -/
theorem C5_witness :
    strip "Ali" ≠ "" ∧ validate_mobile (strip "3001234567") = true ∧
    ¬ (strip "House 1 St 2").length < 3 ∧
    ∃ record : Session,
      session_create [] "Ali" "3001234567" "House 1 St 2" (some "+92") 1000 =
        Except.ok (storeSet [] ("sess_" ++ toString 1000) record,
          "sess_" ++ toString 1000, AUTO_LOGOUT_SECONDS) ∧
      record.cart = [] ∧
      storeGet (storeSet [] ("sess_" ++ toString 1000) record) ("sess_" ++ toString 1000) =
        some record :=
  ⟨by decide, by decide, by decide,
    C5_create_stores_empty_cart [] "Ali" "3001234567" "House 1 St 2" (some "+92") 1000
      (by decide) (by decide) (by decide)⟩

/-- Claim C6, counterexample: a billing reply with status 204 — a 2xx
success status — does NOT clear the cart: `checkout` treats everything
other than 200 and 201 as failure and leaves the store untouched. -/
theorem C6_counterexample :
    checkout [("s",
      { created_at := 0,
        user := { name := "Ali", mobile := "+923001234567", address := "House 1 St 2" },
        cart := [{ name := "a", price := 5, qty := 1, subtotal := 5 }],
        categories := none, selected_cat := none })] "s" "Cash on Delivery" (some 204) =
      { result := CheckoutResult.billingFailed 204,
        sessions := [("s",
          { created_at := 0,
            user := { name := "Ali", mobile := "+923001234567", address := "House 1 St 2" },
            cart := [{ name := "a", price := 5, qty := 1, subtotal := 5 }],
            categories := none, selected_cat := none })],
        network_called := true, scheduled_reset := none } ∧
    200 ≤ 204 ∧ 204 < 300 :=
  ⟨rfl, by norm_num, by norm_num⟩

/-- Claim C6, amended: on an existing session with a non-empty cart, a
billing status of 200 or 201 clears the cart and schedules the 30-second
post-checkout deletion; any other status, or a failed submission, leaves
the session store exactly as it was. -/
theorem C6_checkout_success_clears (sessions : Sessions) (sid pm : String) (state : Session)
    (hget : storeGet sessions sid = some state) (hne : ¬ state.cart = []) :
    (∀ status, status = 200 ∨ status = 201 →
      checkout sessions sid pm (some status) =
        { result := CheckoutResult.success
            { customerName := state.user.name, mobileNo := state.user.mobile,
              address := state.user.address,
              items := (build_items_payload state.cart).1,
              total := (build_items_payload state.cart).2,
              paymentMethod := pm } status,
          sessions := storeSet sessions sid { state with cart := [] },
          network_called := true, scheduled_reset := some (sid, 30) }) ∧
    (∀ status, ¬ (status = 200 ∨ status = 201) →
      checkout sessions sid pm (some status) =
        { result := CheckoutResult.billingFailed status, sessions := sessions,
          network_called := true, scheduled_reset := none }) ∧
    checkout sessions sid pm none =
      { result := CheckoutResult.forwardFailed, sessions := sessions,
        network_called := true, scheduled_reset := none } := by
  refine ⟨?_, ?_, ?_⟩
  · intro status hs
    simp only [checkout, hget, if_neg hne, if_pos hs]
  · intro status hs
    simp only [checkout, hget, if_neg hne, if_neg hs]
  · simp only [checkout, hget, if_neg hne]

/-- Witness for C6: a 200 reply for the one-item session "s" clears its
cart and schedules the 30-second removal. -/
theorem C6_witness :
    checkout [("s",
      { created_at := 0,
        user := { name := "Ali", mobile := "+923001234567", address := "House 1 St 2" },
        cart := [{ name := "a", price := 5, qty := 1, subtotal := 5 }],
        categories := none, selected_cat := none })] "s" "Cash on Delivery" (some 200) =
      { result := CheckoutResult.success
          { customerName := "Ali", mobileNo := "+923001234567", address := "House 1 St 2",
            items := (build_items_payload
              [{ name := "a", price := 5, qty := 1, subtotal := 5 }]).1,
            total := (build_items_payload
              [{ name := "a", price := 5, qty := 1, subtotal := 5 }]).2,
            paymentMethod := "Cash on Delivery" } 200,
        sessions := storeSet [("s",
          { created_at := 0,
            user := { name := "Ali", mobile := "+923001234567", address := "House 1 St 2" },
            cart := [{ name := "a", price := 5, qty := 1, subtotal := 5 }],
            categories := none, selected_cat := none })] "s"
          { created_at := 0,
            user := { name := "Ali", mobile := "+923001234567", address := "House 1 St 2" },
            cart := [], categories := none, selected_cat := none },
        network_called := true, scheduled_reset := some ("s", 30) } :=
  (C6_checkout_success_clears
    [("s",
      { created_at := 0,
        user := { name := "Ali", mobile := "+923001234567", address := "House 1 St 2" },
        cart := [{ name := "a", price := 5, qty := 1, subtotal := 5 }],
        categories := none, selected_cat := none })] "s" "Cash on Delivery"
    { created_at := 0,
      user := { name := "Ali", mobile := "+923001234567", address := "House 1 St 2" },
      cart := [{ name := "a", price := 5, qty := 1, subtotal := 5 }],
      categories := none, selected_cat := none }
    rfl (by simp)).1 200 (Or.inl rfl)

/-- Claim C7: checkout on an existing session whose cart is empty fails
with the empty-cart error, makes no call to the billing API, schedules
nothing, and leaves the store unchanged. -/
theorem C7_empty_cart_rejected (sessions : Sessions) (sid pm : String) (billing : Option Nat)
    (state : Session) (hget : storeGet sessions sid = some state)
    (hempty : state.cart = []) :
    checkout sessions sid pm billing =
      { result := CheckoutResult.emptyCart, sessions := sessions,
        network_called := false, scheduled_reset := none } := by
  simp only [checkout, hget, if_pos hempty]

/-- Witness for C7: checkout on the empty-cart session "s" is rejected
locally. -/
theorem C7_witness :
    checkout [("s",
      { created_at := 0,
        user := { name := "Ali", mobile := "+923001234567", address := "House 1 St 2" },
        cart := [], categories := none, selected_cat := none })]
        "s" "Cash on Delivery" (some 200) =
      { result := CheckoutResult.emptyCart,
        sessions := [("s",
          { created_at := 0,
            user := { name := "Ali", mobile := "+923001234567", address := "House 1 St 2" },
            cart := [], categories := none, selected_cat := none })],
        network_called := false, scheduled_reset := none } :=
  C7_empty_cart_rejected _ "s" "Cash on Delivery" (some 200) _ rfl rfl

lemma build_items_foldl (c : Cart) :
    ∀ acc : List PayloadItem × ℚ,
      c.foldl (fun acc it =>
        (acc.1 ++ [{ itemName := it.name, qty := it.qty, rate := it.price,
                     amount := it.subtotal }],
         acc.2 + it.subtotal)) acc =
      (acc.1 ++ c.map (fun it =>
        { itemName := it.name, qty := it.qty, rate := it.price, amount := it.subtotal }),
       acc.2 + (c.map LineItem.subtotal).sum) := by
  induction c with
  | nil => intro acc; simp
  | cons it rest ih =>
    intro acc
    simp only [List.foldl_cons, ih, List.map_cons, List.sum_cons]
    simp [List.append_assoc, List.singleton_append, add_assoc]

/-- Claim C10: for a non-empty cart, the total the checkout handler
accumulates inline while building the billing payload equals the total of
`compute_cart_summary`, and the payload rows carry exactly the summary
rows' values under the renamed fields. -/
theorem C10_payload_matches_summary (cart : Cart) (_hne : cart ≠ []) :
    (build_items_payload cart).2 = (compute_cart_summary cart).total ∧
    (build_items_payload cart).1 =
      (compute_cart_summary cart).lines.map fun l =>
        { itemName := l.name, qty := l.qty, rate := l.rate, amount := l.amount } := by
  have hfold := build_items_foldl cart ([], 0)
  constructor
  · rw [summary_total_eq_sum]
    simp [build_items_payload, hfold]
  · simp [build_items_payload, hfold, compute_cart_summary, List.map_map]

/-- Witness for C10: payload and summary agree on the one-item cart
(a, 5, 2, 10). -/
theorem C10_witness :
    (build_items_payload [{ name := "a", price := 5, qty := 2, subtotal := 10 }]).2 =
      (compute_cart_summary [{ name := "a", price := 5, qty := 2, subtotal := 10 }]).total ∧
    (build_items_payload [{ name := "a", price := 5, qty := 2, subtotal := 10 }]).1 =
      (compute_cart_summary [{ name := "a", price := 5, qty := 2, subtotal := 10 }]).lines.map
        fun l => { itemName := l.name, qty := l.qty, rate := l.rate, amount := l.amount } :=
  C10_payload_matches_summary [{ name := "a", price := 5, qty := 2, subtotal := 10 }]
    (by simp)

end Bot
